import Mathlib

/-!
Verification development for the ayurvedic-backend order / payment
reconciliation subsystem.  The definitions below are a shallow embedding of
the Python source files app/payments.py, app/orders.py and app/admin.py:
MongoDB documents become Lean structures, the orders collection becomes a
list, find_one / update_one become list operations, HTTP handlers become
pure functions from request data and store state to a result and a new
store state.  Monetary amounts are exact rationals; the Python round(x, 2)
builtin is modelled by round-half-to-even on rationals.
-/

namespace Ayur

/-- An order document in the orders collection (app/orders.py builds it,
app/payments.py and app/admin.py mutate paymentStatus and the razorpay
subdocument).  The razorpay subdocument is flattened into the three
rzp-prefixed fields. -/
structure Order where
  _id : Nat
  userId : Nat
  totalAmount : Rat
  paymentMethod : String
  paymentStatus : String
  rzpOrderId : Option String
  rzpPaymentId : Option String
  webhookVerifiedAt : Option Nat
  deriving DecidableEq, Repr

/-- The guard list of app/payments.py lines 115 and 142: an order whose
paymentStatus is in this list is not touched by the webhook handler. -/
def processedStatuses : List String := ["completed", "failed", "refunded"]

/-- Membership test for the guard list, as a Bool like the Python
`not in` check. -/
def isProcessedStatus (s : String) : Bool := processedStatuses.contains s

/-- db.orders.find_one with filter on razorpay.orderId
(app/payments.py lines 114 and 141). -/
def find_one_byRzpOrderId (orders : List Order) (roid : String) : Option Order :=
  orders.find? (fun o => o.rzpOrderId == some roid)

/-- db.orders.find_one with filter on the _id field. -/
def find_one_byId (orders : List Order) (i : Nat) : Option Order :=
  orders.find? (fun o => o._id == i)

/-- db.orders.update_one with filter on _id and a dollar-set document,
modelled as applying f to every order with the given _id (MongoDB _id
values are unique, so at most one document is touched). -/
def update_one_set (orders : List Order) (i : Nat) (f : Order → Order) : List Order :=
  orders.map (fun o => if o._id == i then f o else o)

/-- The payment entity of a webhook payload
(payload.payment.entity in app/payments.py lines 108-111). -/
structure PaymentEntity where
  order_id : Option String
  id : Option String
  status : Option String
  deriving DecidableEq, Repr

/-- A parsed webhook event body. -/
structure WebhookEvent where
  event : Option String
  entity : PaymentEntity
  deriving DecidableEq, Repr

/-- The dollar-set write that one webhook branch intends to perform:
target document, new paymentStatus, and the razorpay payment id to
record. -/
structure PendingWrite where
  targetId : Nat
  newStatus : String
  paymentId : Option String
  deriving DecidableEq, Repr

/-- Phase one of the payment.captured branch (app/payments.py lines
107-115): read the order by razorpay order id and decide the write.
Returns none when the branch is a no-op.  The Python truthiness test on
razorpay_order_id rejects the empty string. -/
def capturedWrite (orders : List Order) (ev : WebhookEvent) : Option PendingWrite :=
  match ev.entity.order_id with
  | none => none
  | some roid =>
    if roid.isEmpty then none
    else if ev.entity.status == some "captured" then
      match find_one_byRzpOrderId orders roid with
      | some o =>
        if isProcessedStatus o.paymentStatus then none
        else some ⟨o._id, "completed", ev.entity.id⟩
      | none => none
    else none

/-- Phase one of the payment.failed branch (app/payments.py lines
135-142); no status field check in this branch. -/
def failedWrite (orders : List Order) (ev : WebhookEvent) : Option PendingWrite :=
  match ev.entity.order_id with
  | none => none
  | some roid =>
    if roid.isEmpty then none
    else
      match find_one_byRzpOrderId orders roid with
      | some o =>
        if isProcessedStatus o.paymentStatus then none
        else some ⟨o._id, "failed", ev.entity.id⟩
      | none => none

/-- Phase two: the update_one call of app/payments.py lines 116-123 and
144-151, setting paymentStatus, razorpay.paymentId and
razorpay.webhookVerifiedAt. -/
def applyWrite (orders : List Order) (w : PendingWrite) (now : Nat) : List Order :=
  update_one_set orders w.targetId (fun o =>
    { o with paymentStatus := w.newStatus
             rzpPaymentId := w.paymentId
             webhookVerifiedAt := some now })

/-- The event-dispatch part of the webhook handler (app/payments.py lines
107-164) on an already parsed event, assuming the store operations
succeed. -/
def processEvent (orders : List Order) (ev : WebhookEvent) (now : Nat) : List Order :=
  if ev.event == some "payment.captured" then
    match capturedWrite orders ev with
    | some w => applyWrite orders w now
    | none => orders
  else if ev.event == some "payment.failed" then
    match failedWrite orders ev with
    | some w => applyWrite orders w now
    | none => orders
  else orders

/-- Same dispatch but inside the try block of app/payments.py lines
100-168: parsing may fail (request.get_json returned nothing usable) and
the update_one call may raise a persistence error, modelled by the
updateFails flag; either raises out of the dispatch. -/
def processEventExc (parsed : Option WebhookEvent) (updateFails : Bool)
    (orders : List Order) (now : Nat) : Except Unit (List Order) :=
  match parsed with
  | none => .error ()
  | some ev =>
    if ev.event == some "payment.captured" then
      match capturedWrite orders ev with
      | some w => if updateFails then .error () else .ok (applyWrite orders w now)
      | none => .ok orders
    else if ev.event == some "payment.failed" then
      match failedWrite orders ev with
      | some w => if updateFails then .error () else .ok (applyWrite orders w now)
      | none => .ok orders
    else .ok orders

/-- An inbound webhook request: raw body bytes, the X-Razorpay-Signature
header if present, and the result of parsing the body as JSON. -/
structure WebhookRequest where
  body : List Nat
  signatureHeader : Option String
  parsed : Option WebhookEvent
  deriving DecidableEq, Repr

/-- The outcome of the webhook handler: HTTP status code, the status
field of the JSON response body, and the orders collection afterwards. -/
structure HandlerResult where
  httpStatus : Nat
  bodyStatus : String
  orders : List Order
  deriving DecidableEq, Repr

/-- The razorpay_webhook handler of app/payments.py lines 68-170.
hmacHex abstracts the HMAC-SHA256 hex digest of a body under a secret;
the handler compares it with the supplied header (hmac.compare_digest,
modelled as equality). -/
def razorpay_webhook (hmacHex : String → List Nat → String)
    (webhookSecret : Option String) (req : WebhookRequest)
    (updateFails : Bool) (now : Nat) (orders : List Order) : HandlerResult :=
  match webhookSecret with
  | none => ⟨500, "error", orders⟩
  | some secret =>
    match req.signatureHeader with
    | none => ⟨400, "error", orders⟩
    | some sig =>
      if hmacHex secret req.body == sig then
        match processEventExc req.parsed updateFails orders now with
        | .ok orders2 => ⟨200, "ok", orders2⟩
        | .error _ => ⟨200, "error processing payload", orders⟩
      else ⟨400, "error", orders⟩

/-- n sequential deliveries of the same event to the webhook dispatch. -/
def deliverN (ev : WebhookEvent) (now : Nat) (orders : List Order) : Nat → List Order
  | 0 => orders
  | n + 1 => processEvent (deliverN ev now orders n) ev now

/-! Order creation (app/orders.py lines 13-131). -/

/-- Round half to even to an integer, the tie-breaking rule of the Python
round builtin, on exact rationals. -/
def roundHalfEven (q : Rat) : Int :=
  if q - ⌊q⌋ < 1 / 2 then ⌊q⌋
  else if q - ⌊q⌋ > 1 / 2 then ⌊q⌋ + 1
  else if ⌊q⌋ % 2 = 0 then ⌊q⌋ else ⌊q⌋ + 1

/-- Python round(q, 2): round to 2 decimal places. -/
def round2 (q : Rat) : Rat := ((roundHalfEven (q * 100) : Int) : Rat) / 100

/-- The price entry of an incoming cart item.  pmissing, pnull, pempty
are the three cases rejected by the explicit check at app/orders.py line
57 (key absent, None, empty string); pbad is a value on which float()
raises; pval is a parsed numeric value. -/
inductive PriceField
  | pmissing
  | pnull
  | pempty
  | pbad
  | pval (q : Rat)
  deriving DecidableEq, Repr

/-- The quantity entry of an incoming cart item: a missing key defaults
to 0 via item_data.get, so qval 0 models it; qbad is a value on which
int() raises. -/
inductive QtyField
  | qbad
  | qval (n : Int)
  deriving DecidableEq, Repr

/-- One item of the cart payload sent by the client. -/
structure CartItem where
  id : Option String
  name : Option String
  price : PriceField
  quantity : QtyField
  deriving DecidableEq, Repr

/-- The cart entry of the request body: absent or None, present but not
a JSON list, or a list of items (possibly empty). -/
inductive CartField
  | cmissing
  | cnotList
  | citems (l : List CartItem)
  deriving DecidableEq, Repr

/-- The address entry of the request body: absent or None, an empty dict
(falsy, so caught by the missing-details check), a truthy non-dict value,
or a non-empty dict.  The dict contents are never validated by the
source, so they are not modelled. -/
inductive AddrField
  | amissing
  | afalsy
  | anotDict
  | adict
  deriving DecidableEq, Repr

/-- The order-creation request body. -/
structure OrderReq where
  cart : CartField
  paymentMethod : Option String
  address : AddrField
  deriving DecidableEq, Repr

/-- Truthiness of the cart entry (Python `not cart_items_data`). -/
def cartFalsy : CartField → Bool
  | .cmissing => true
  | .cnotList => false
  | .citems l => l.isEmpty

/-- Truthiness of an optional string (Python `not payment_method`). -/
def optStrFalsy : Option String → Bool
  | none => true
  | some s => s.isEmpty

/-- Truthiness of the address entry (Python `not address_data`). -/
def addrFalsy : AddrField → Bool
  | .amissing => true
  | .afalsy => true
  | .anotDict => false
  | .adict => false

/-- The distinct failure modes of the cart-item loop at app/orders.py
lines 55-77. -/
inductive ItemErr
  | priceMissing
  | formatError
  | invalidItem
  deriving DecidableEq, Repr

/-- An order item as stored in the order document
(app/orders.py lines 70-75). -/
structure OItem where
  productId : String
  productName : String
  quantity : Int
  price : Rat
  deriving DecidableEq, Repr

/-- The loop of app/orders.py lines 55-75: walk the cart accumulating
the running total and the order items, stopping at the first bad item.
pbad and qbad raise ValueError or TypeError, caught at line 76. -/
def processItems : List CartItem → Rat → List OItem → Except ItemErr (Rat × List OItem)
  | [], total, acc => .ok (total, acc)
  | it :: rest, total, acc =>
    match it.price with
    | .pmissing => .error .priceMissing
    | .pnull => .error .priceMissing
    | .pempty => .error .priceMissing
    | .pbad => .error .formatError
    | .pval price =>
      match it.quantity with
      | .qbad => .error .formatError
      | .qval quantity =>
        if price ≤ 0 ∨ quantity ≤ 0 ∨ it.id = none ∨ optStrFalsy it.name then
          .error .invalidItem
        else
          processItems rest (total + price * quantity)
            (acc ++ [⟨it.id.getD "", (it.name).getD "", quantity, price⟩])

/-- The computed cart total on its own: the running sum the loop
produces when it succeeds. -/
def itemsTotal (items : List CartItem) : Rat :=
  match processItems items 0 [] with
  | .ok (t, _) => t
  | .error _ => 0

/-- The order document built at app/orders.py lines 82-107.  The
paymentStatus starts as pending and is overwritten to processing in the
cod branch before the insert; estimatedDeliveryDate is now plus a
randomized 4 or 5 days (deliveryDays), in seconds. -/
structure OrderDoc where
  userId : Nat
  totalAmount : Rat
  paymentMethod : String
  paymentStatus : String
  shippingAddress : AddrField
  items : List OItem
  estimatedDeliveryDate : Option Nat
  deriving DecidableEq, Repr

/-- The outcome of the create_order handler. -/
inductive CreateResult
  | reject (code : Nat) (msg : String)
  | created (doc : OrderDoc) (code : Nat)
  | persistError (code : Nat)
  deriving DecidableEq, Repr

/-- The create_order handler of app/orders.py lines 13-131, as a pure
function.  deliveryDays stands for random.randint(4, 5); insertOk is
whether the insert_one call succeeds; the second component is the list
of documents actually inserted into the store. -/
def create_order (userId : Nat) (req : OrderReq) (deliveryDays : Nat) (now : Nat)
    (insertOk : Bool) : CreateResult × List OrderDoc :=
  if cartFalsy req.cart || optStrFalsy req.paymentMethod || addrFalsy req.address then
    (.reject 400 "Missing order details", [])
  else
    match req.cart with
    | .cmissing => (.reject 400 "Missing order details", [])
    | .cnotList => (.reject 400 "Cart items must be a non-empty list", [])
    | .citems items =>
      if req.paymentMethod ≠ some "cod" then
        (.reject 400 "Only Cash on Delivery is currently supported", [])
      else if req.address = AddrField.anotDict then
        (.reject 400 "Invalid address format", [])
      else
        match processItems items 0 [] with
        | .error .priceMissing => (.reject 400 "Price missing for item", [])
        | .error .formatError => (.reject 400 "Invalid cart item data format", [])
        | .error .invalidItem => (.reject 400 "Invalid data for item", [])
        | .ok (total_amount, order_items) =>
          if total_amount ≤ 0 then
            (.reject 400 "Cannot create order with zero total", [])
          else
            let doc : OrderDoc :=
              { userId := userId
                totalAmount := round2 total_amount
                paymentMethod := "cod"
                paymentStatus := "processing"
                shippingAddress := req.address
                items := order_items
                estimatedDeliveryDate := some (now + deliveryDays * 86400) }
            if insertOk then (.created doc 201, [doc])
            else (.persistError 500, [])

/-! Administrative status override (app/admin.py lines 312-353). -/

/-- app/admin.py line 11. -/
def ALLOWED_ORDER_STATUSES : List String :=
  ["processing", "pending", "shipped", "delivered", "completed", "cancelled", "failed"]

/-- Python str.lower on the status value, mapped over the characters
(the status values involved are ASCII). -/
def lower (s : String) : String := String.mk (s.data.map Char.toLower)

/-- Outcome of the admin status-update handler. -/
inductive AdminResult
  | badRequest (msg : String)
  | notFound
  | okUpdated
  | okNoChange
  deriving DecidableEq, Repr

/-- The update_order_status handler of app/admin.py lines 312-353: after
validating the requested status against the allowed list it performs an
unconditional update_one keyed only by _id. -/
def update_order_status (orders : List Order) (order_id : Nat)
    (status : Option String) : AdminResult × List Order :=
  match status with
  | none => (.badRequest "Missing status field in request body", orders)
  | some s =>
    let new_status := lower s
    if ALLOWED_ORDER_STATUSES.contains new_status then
      match find_one_byId orders order_id with
      | none => (.notFound, orders)
      | some o =>
        let orders2 := update_one_set orders order_id
          (fun x => { x with paymentStatus := new_status })
        if o.paymentStatus == new_status then (.okNoChange, orders2)
        else (.okUpdated, orders2)
    else (.badRequest "Invalid status value", orders)

/-! Concrete fixtures used by witnesses and counterexamples. -/

/-- A gateway order still awaiting confirmation. -/
def orderProcessing : Order := ⟨1, 7, 100, "razorpay", "processing", some "ord_1", none, none⟩

/-- An order whose paymentStatus is refunded: inside the guard list of the
code, outside the terminal set named by the spec. -/
def orderRefunded : Order := ⟨1, 7, 100, "razorpay", "refunded", some "ord_1", none, none⟩

/-- An order whose paymentStatus is cancelled: terminal for the spec, not
in the guard list of the code. -/
def orderCancelled : Order := ⟨1, 7, 100, "razorpay", "cancelled", some "ord_1", none, none⟩

/-- An order already completed. -/
def orderCompleted : Order := ⟨1, 7, 100, "razorpay", "completed", some "ord_1", none, none⟩

/-- A well-formed verified payment.captured event for ord_1. -/
def evCaptured : WebhookEvent :=
  ⟨some "payment.captured", ⟨some "ord_1", some "pay_9", some "captured"⟩⟩

/-- A well-formed verified payment.failed event for ord_1. -/
def evFailed : WebhookEvent :=
  ⟨some "payment.failed", ⟨some "ord_1", some "pay_8", some "failed"⟩⟩

/-! Helper lemmas about the webhook dispatch. -/

/-- find_one by razorpay order id commutes with an update_one that never
touches the razorpay.orderId field. -/
lemma find_one_applyWrite (orders : List Order) (w : PendingWrite) (now : Nat) (roid : String) :
    find_one_byRzpOrderId (applyWrite orders w now) roid =
      (find_one_byRzpOrderId orders roid).map (fun o =>
        if o._id == w.targetId then
          { o with paymentStatus := w.newStatus
                   rzpPaymentId := w.paymentId
                   webhookVerifiedAt := some now }
        else o) := by
  unfold find_one_byRzpOrderId applyWrite update_one_set
  rw [List.find?_map]
  have hpred : ((fun o : Order => o.rzpOrderId == some roid) ∘
        (fun o : Order => if o._id == w.targetId then
          { o with paymentStatus := w.newStatus
                   rzpPaymentId := w.paymentId
                   webhookVerifiedAt := some now }
        else o)) = (fun o : Order => o.rzpOrderId == some roid) := by
    funext o
    simp only [Function.comp_apply]
    split <;> rfl
  rw [hpred]

/-- Phase one of the captured branch when the order exists and its status
is outside the guard list. -/
lemma capturedWrite_eq_some (orders : List Order) (ev : WebhookEvent) (roid : String) (o : Order)
    (hoid : ev.entity.order_id = some roid) (hne : roid.isEmpty = false)
    (hst : ev.entity.status = some "captured")
    (hfind : find_one_byRzpOrderId orders roid = some o)
    (hterm : isProcessedStatus o.paymentStatus = false) :
    capturedWrite orders ev = some ⟨o._id, "completed", ev.entity.id⟩ := by
  unfold capturedWrite
  rw [hoid]
  simp [hne, hst, hfind, hterm]

/-- The captured branch with a matched, unguarded order performs exactly
the dollar-set update of app/payments.py lines 116-123. -/
lemma processEvent_captured_step (orders : List Order) (ev : WebhookEvent) (now : Nat)
    (roid : String) (o : Order)
    (hev : ev.event = some "payment.captured")
    (hoid : ev.entity.order_id = some roid) (hne : roid.isEmpty = false)
    (hst : ev.entity.status = some "captured")
    (hfind : find_one_byRzpOrderId orders roid = some o)
    (hterm : isProcessedStatus o.paymentStatus = false) :
    processEvent orders ev now = applyWrite orders ⟨o._id, "completed", ev.entity.id⟩ now := by
  unfold processEvent
  rw [hev, capturedWrite_eq_some orders ev roid o hoid hne hst hfind hterm]
  simp

/-- After the captured update, the order matched by the external id
carries status completed, the payment id and the timestamp. -/
lemma find_after_captured (orders : List Order) (ev : WebhookEvent) (now : Nat)
    (roid : String) (o : Order)
    (hev : ev.event = some "payment.captured")
    (hoid : ev.entity.order_id = some roid) (hne : roid.isEmpty = false)
    (hst : ev.entity.status = some "captured")
    (hfind : find_one_byRzpOrderId orders roid = some o)
    (hterm : isProcessedStatus o.paymentStatus = false) :
    find_one_byRzpOrderId (processEvent orders ev now) roid =
      some { o with paymentStatus := "completed"
                    rzpPaymentId := ev.entity.id
                    webhookVerifiedAt := some now } := by
  rw [processEvent_captured_step orders ev now roid o hev hoid hne hst hfind hterm,
    find_one_applyWrite, hfind]
  simp

/-- Any webhook event referencing an order whose status is in the guard
list leaves the store untouched. -/
lemma noop_of_guarded (orders : List Order) (ev : WebhookEvent) (now : Nat)
    (roid : String) (o : Order)
    (hoid : ev.entity.order_id = some roid)
    (hfind : find_one_byRzpOrderId orders roid = some o)
    (hterm : isProcessedStatus o.paymentStatus = true) :
    processEvent orders ev now = orders := by
  have hcap : capturedWrite orders ev = none := by
    unfold capturedWrite
    rw [hoid]
    by_cases hemp : roid.isEmpty <;> simp [hemp, hfind, hterm]
  have hfail : failedWrite orders ev = none := by
    unfold failedWrite
    rw [hoid]
    by_cases hemp : roid.isEmpty <;> simp [hemp, hfind, hterm]
  unfold processEvent
  by_cases hc : ev.event == some "payment.captured"
  · simp [hc, hcap]
  · by_cases hf : ev.event == some "payment.failed"
    · simp [hc, hf, hfail]
    · simp [hc, hf]

/-- Same no-op fact inside the try block: the event is handled without
raising, whatever the fault state of the store, because no update_one
call is reached. -/
lemma noopExc_of_guarded (ev : WebhookEvent) (uf : Bool) (orders : List Order) (now : Nat)
    (roid : String) (o : Order)
    (hoid : ev.entity.order_id = some roid)
    (hfind : find_one_byRzpOrderId orders roid = some o)
    (hterm : isProcessedStatus o.paymentStatus = true) :
    processEventExc (some ev) uf orders now = .ok orders := by
  have hcap : capturedWrite orders ev = none := by
    unfold capturedWrite
    rw [hoid]
    by_cases hemp : roid.isEmpty <;> simp [hemp, hfind, hterm]
  have hfail : failedWrite orders ev = none := by
    unfold failedWrite
    rw [hoid]
    by_cases hemp : roid.isEmpty <;> simp [hemp, hfind, hterm]
  unfold processEventExc
  by_cases hc : ev.event == some "payment.captured"
  · simp [hc, hcap]
  · by_cases hf : ev.event == some "payment.failed"
    · simp [hc, hf, hfail]
    · simp [hc, hf]

/-- Every delivery of the same captured event after the first is a no-op:
n plus one deliveries equal one delivery. -/
lemma deliverN_captured_stable (orders : List Order) (ev : WebhookEvent) (now : Nat)
    (roid : String) (o : Order)
    (hev : ev.event = some "payment.captured")
    (hoid : ev.entity.order_id = some roid) (hne : roid.isEmpty = false)
    (hst : ev.entity.status = some "captured")
    (hfind : find_one_byRzpOrderId orders roid = some o)
    (hterm : isProcessedStatus o.paymentStatus = false) :
    ∀ n : Nat, deliverN ev now orders (n + 1) = processEvent orders ev now := by
  intro n
  induction n with
  | zero => rfl
  | succ m ih =>
    show processEvent (deliverN ev now orders (m + 1)) ev now = processEvent orders ev now
    rw [ih]
    exact noop_of_guarded (processEvent orders ev now) ev now roid
      { o with paymentStatus := "completed"
               rzpPaymentId := ev.entity.id
               webhookVerifiedAt := some now }
      hoid (find_after_captured orders ev now roid o hev hoid hne hst hfind hterm) rfl

/-! Helper lemmas about rounding and order creation. -/

/-- Round half to even never goes below the floor, so it maps nonnegative
rationals to nonnegative integers. -/
lemma roundHalfEven_nonneg (q : Rat) (h : 0 ≤ q) : 0 ≤ roundHalfEven q := by
  have hf : (0 : Int) ≤ ⌊q⌋ := Int.le_floor.mpr (by exact_mod_cast h)
  unfold roundHalfEven
  split
  · exact hf
  · split
    · omega
    · split
      · exact hf
      · omega

/-- Rounding to 2 decimals preserves nonnegativity. -/
lemma round2_nonneg (q : Rat) (h : 0 ≤ q) : 0 ≤ round2 q := by
  unfold round2
  have h100 : (0 : Rat) ≤ q * 100 := by positivity
  have hi := roundHalfEven_nonneg (q * 100) h100
  have hc : (0 : Rat) ≤ (roundHalfEven (q * 100) : Rat) := by exact_mod_cast hi
  exact div_nonneg hc (by norm_num)

/-- The order document assembled at app/orders.py lines 82-107 from the
validated inputs. -/
def mkOrderDoc (u : Nat) (addr : AddrField) (total : Rat) (oitems : List OItem)
    (d now : Nat) : OrderDoc :=
  { userId := u
    totalAmount := round2 total
    paymentMethod := "cod"
    paymentStatus := "processing"
    shippingAddress := addr
    items := oitems
    estimatedDeliveryDate := some (now + d * 86400) }

/-- Exhaustive case analysis of create_order: either some validation
check rejected the request and nothing was written, or the cart parsed
with a positive total under method cod, and the one insert either failed
(persistError, nothing written) or succeeded with exactly the assembled
document written. -/
lemma create_order_cases (u : Nat) (req : OrderReq) (d now : Nat) (ok : Bool) :
    (∃ c m, create_order u req d now ok = (.reject c m, [])) ∨
    ∃ items total oitems,
      req.cart = .citems items ∧
      processItems items 0 [] = .ok (total, oitems) ∧
      ¬total ≤ 0 ∧
      req.paymentMethod = some "cod" ∧
      ((ok = false ∧ create_order u req d now ok = (.persistError 500, [])) ∨
       (ok = true ∧ create_order u req d now ok =
          (.created (mkOrderDoc u req.address total oitems d now) 201,
           [mkOrderDoc u req.address total oitems d now]))) := by
  unfold create_order
  split
  · exact .inl ⟨400, _, rfl⟩
  · split
    · exact .inl ⟨400, _, rfl⟩
    · exact .inl ⟨400, _, rfl⟩
    · rename_i items hc
      split
      · exact .inl ⟨400, _, rfl⟩
      · split
        · exact .inl ⟨400, _, rfl⟩
        · rename_i hpm haddr
          split
          · exact .inl ⟨400, _, rfl⟩
          · exact .inl ⟨400, _, rfl⟩
          · exact .inl ⟨400, _, rfl⟩
          · rename_i total oitems hpi
            split
            · exact .inl ⟨400, _, rfl⟩
            · rename_i hpos
              refine .inr ⟨items, total, oitems, hc, hpi, hpos, ?_, ?_⟩
              · by_contra hne
                exact hpm hne
              · split
                · exact .inr ⟨by assumption, rfl⟩
                · rename_i hok
                  exact .inl ⟨by simpa using hok, rfl⟩

/-! Claim C1. -/

/-- C1 (amended): for every verified payment.captured webhook event with
a non-empty external order id and payload status captured, matching an
existing order whose paymentStatus is not in the guard set of the code
(completed, failed, refunded), the dispatch sets that order to completed,
records the external payment id, and records the reconciliation
timestamp. -/
theorem c1_captured_completes_nonterminal (orders : List Order) (ev : WebhookEvent)
    (now : Nat) (roid : String) (o : Order)
    (hev : ev.event = some "payment.captured")
    (hoid : ev.entity.order_id = some roid) (hne : roid.isEmpty = false)
    (hst : ev.entity.status = some "captured")
    (hfind : find_one_byRzpOrderId orders roid = some o)
    (hterm : isProcessedStatus o.paymentStatus = false) :
    find_one_byRzpOrderId (processEvent orders ev now) roid =
      some { o with paymentStatus := "completed"
                    rzpPaymentId := ev.entity.id
                    webhookVerifiedAt := some now } :=
  find_after_captured orders ev now roid o hev hoid hne hst hfind hterm

/-- Witness for C1 on a concrete processing order. -/
theorem c1_witness :
    find_one_byRzpOrderId (processEvent [orderProcessing] evCaptured 5) "ord_1" =
      some ⟨1, 7, 100, "razorpay", "completed", some "ord_1", some "pay_9", some 5⟩ :=
  c1_captured_completes_nonterminal [orderProcessing] evCaptured 5 "ord_1" orderProcessing
    rfl rfl rfl rfl rfl rfl

/-- Counterexample for C1 as frozen: an order with paymentStatus refunded
is outside the terminal set named by the spec, yet the dispatch leaves it
completely untouched, because the guard list of the code is
completed, failed, refunded. -/
theorem c1_counterexample :
    "refunded" ∉ (["completed", "failed", "cancelled"] : List String) ∧
    processEvent [orderRefunded] evCaptured 5 = [orderRefunded] := by
  constructor
  · decide
  · rfl

/-! Claim C2. -/

/-- C2 (amended): for every order whose paymentStatus is in the guard set
of the code (completed, failed, refunded), any subsequent verified
webhook event referencing it leaves the store unchanged and is handled
without raising: a no-op, not an error. -/
theorem c2_terminal_noop (orders : List Order) (ev : WebhookEvent) (now : Nat)
    (uf : Bool) (roid : String) (o : Order)
    (hoid : ev.entity.order_id = some roid)
    (hfind : find_one_byRzpOrderId orders roid = some o)
    (hterm : isProcessedStatus o.paymentStatus = true) :
    processEvent orders ev now = orders ∧
    processEventExc (some ev) uf orders now = .ok orders :=
  ⟨noop_of_guarded orders ev now roid o hoid hfind hterm,
   noopExc_of_guarded ev uf orders now roid o hoid hfind hterm⟩

/-- Witness for C2 on a completed order. -/
theorem c2_witness :
    processEvent [orderCompleted] evCaptured 5 = [orderCompleted] ∧
    processEventExc (some evCaptured) true [orderCompleted] 5 = .ok [orderCompleted] :=
  c2_terminal_noop [orderCompleted] evCaptured 5 true "ord_1" orderCompleted rfl rfl rfl

/-- Counterexample for C2 as frozen: cancelled is in the terminal set of
the spec, yet a later verified payment.captured event moves the order to
completed, because cancelled is absent from the guard list of the
code. -/
theorem c2_counterexample :
    "cancelled" ∈ (["completed", "failed", "cancelled"] : List String) ∧
    (processEvent [orderCancelled] evCaptured 5).map (fun o => o.paymentStatus) =
      ["completed"] := by
  constructor
  · decide
  · rfl

/-! Claim C3. -/

/-- C3 (amended): for every order outside the guard set of the code
(completed, failed, refunded) and every n of at least 1 sequential
deliveries of the same well-formed verified payment.captured event
referencing it, the outcome equals the outcome of the first delivery
alone, and the matched order ends with paymentStatus completed. -/
theorem c3_captured_idempotent (orders : List Order) (ev : WebhookEvent) (now : Nat)
    (roid : String) (o : Order)
    (hev : ev.event = some "payment.captured")
    (hoid : ev.entity.order_id = some roid) (hne : roid.isEmpty = false)
    (hst : ev.entity.status = some "captured")
    (hfind : find_one_byRzpOrderId orders roid = some o)
    (hterm : isProcessedStatus o.paymentStatus = false)
    (n : Nat) (hn : 1 ≤ n) :
    deliverN ev now orders n = processEvent orders ev now ∧
    find_one_byRzpOrderId (deliverN ev now orders n) roid =
      some { o with paymentStatus := "completed"
                    rzpPaymentId := ev.entity.id
                    webhookVerifiedAt := some now } := by
  obtain ⟨m, rfl⟩ : ∃ m, n = m + 1 := ⟨n - 1, (Nat.succ_pred_eq_of_pos hn).symm⟩
  refine ⟨deliverN_captured_stable orders ev now roid o hev hoid hne hst hfind hterm m, ?_⟩
  rw [deliverN_captured_stable orders ev now roid o hev hoid hne hst hfind hterm m]
  exact find_after_captured orders ev now roid o hev hoid hne hst hfind hterm

/-- Witness for C3 with three deliveries. -/
theorem c3_witness :
    deliverN evCaptured 5 [orderProcessing] 3 = processEvent [orderProcessing] evCaptured 5 ∧
    find_one_byRzpOrderId (deliverN evCaptured 5 [orderProcessing] 3) "ord_1" =
      some ⟨1, 7, 100, "razorpay", "completed", some "ord_1", some "pay_9", some 5⟩ :=
  c3_captured_idempotent [orderProcessing] evCaptured 5 "ord_1" orderProcessing
    rfl rfl rfl rfl rfl rfl 3 (by decide)

/-- Counterexample for C3 as frozen: an order with paymentStatus refunded
is non-terminal for the spec, yet repeated captured deliveries never move
it to completed. -/
theorem c3_counterexample :
    "refunded" ∉ (["completed", "failed", "cancelled"] : List String) ∧
    (deliverN evCaptured 5 [orderRefunded] 1).map (fun o => o.paymentStatus) =
      ["refunded"] := by
  constructor
  · decide
  · rfl

/-! Concrete order-creation fixtures. -/

/-- The scenario cart of the spec: one Tonic at 199.50 times 2. -/
def cartGood : List CartItem := [⟨some "p1", some "Tonic", .pval (399 / 2), .qval 2⟩]

/-- A fully valid cod request. -/
def reqGood : OrderReq := ⟨.citems cartGood, some "cod", .adict⟩

/-- The document create_order persists for reqGood with user 7,
deliveryDays 4 and now 0. -/
def docGood : OrderDoc :=
  ⟨7, 399, "cod", "processing", .adict, [⟨"p1", "Tonic", 2, 399 / 2⟩], some 345600⟩

/-- A cart with a positive price below half a cent. -/
def cartTiny : List CartItem := [⟨some "p1", some "Tonic", .pval (1 / 1000), .qval 1⟩]

/-- A valid cod request whose computed total rounds to zero. -/
def reqTiny : OrderReq := ⟨.citems cartTiny, some "cod", .adict⟩

/-- A cart with a zero price, so the computed total is zero. -/
def cartZero : List CartItem := [⟨some "p1", some "Tonic", .pval 0, .qval 1⟩]

/-- A cod request with a zero-total cart. -/
def reqZero : OrderReq := ⟨.citems cartZero, some "cod", .adict⟩

/-- A fully valid request selecting the gateway payment method. -/
def reqGateway : OrderReq := ⟨.citems cartGood, some "gateway", .adict⟩

/-- Concrete evaluation of create_order on the spec scenario request:
one Tonic at 199.50 times 2 under cod persists exactly docGood. -/
lemma create_order_reqGood_eval :
    create_order 7 reqGood 4 0 true = (.created docGood 201, [docGood]) := by
  have h1 : "Tonic".isEmpty = false := by decide
  have h2 : ((some "p1" : Option String) = none) = False := by simp
  have h3 : "cod".isEmpty = false := by decide
  have h4 : (AddrField.adict = AddrField.anotDict) = False := by simp
  norm_num [create_order, reqGood, cartGood, docGood, processItems, cartFalsy, optStrFalsy,
    addrFalsy, round2, roundHalfEven, mkOrderDoc, h1, h2, h3, h4]

/-- The zero-price cart computes total 0. -/
lemma itemsTotal_cartZero_le : itemsTotal cartZero ≤ 0 := by
  norm_num [itemsTotal, processItems, cartZero]

/-! Claim C4. -/

/-- C4 (amended): every persisted order carries totalAmount equal to the
computed cart total rounded to 2 decimals, the unrounded computed total
is strictly positive, and the stored rounded total is nonnegative; and
for every cart whose computed total is at most 0, order creation rejects
the request and persists nothing.  The stored rounded value itself can be
0 when the positive computed total is below half a cent, so the frozen
claim that every persisted order has totalAmount strictly positive fails
(see the counterexample). -/
theorem c4_total_invariant (u : Nat) (req : OrderReq) (d now : Nat) (ok : Bool) :
    (∀ doc code items, req.cart = .citems items →
        (create_order u req d now ok).1 = .created doc code →
        doc.totalAmount = round2 (itemsTotal items) ∧ 0 < itemsTotal items ∧
          0 ≤ doc.totalAmount) ∧
    (∀ items, req.cart = .citems items → itemsTotal items ≤ 0 →
        (∃ c m, (create_order u req d now ok).1 = .reject c m) ∧
        (create_order u req d now ok).2 = []) := by
  rcases create_order_cases u req d now ok with ⟨c, m, h⟩ |
    ⟨items, total, oitems, hcart, hpi, hpos, hpm, hrest⟩
  · constructor
    · intro doc code items hc hcr
      rw [h] at hcr
      simp at hcr
    · intro items hc hle
      exact ⟨⟨c, m, by rw [h]⟩, by rw [h]⟩
  · have htot : itemsTotal items = total := by
      unfold itemsTotal
      rw [hpi]
    have h0t : 0 < total := lt_of_not_ge fun hge => hpos hge
    constructor
    · intro doc code items' hc hcr
      have hieq : items' = items := by
        rw [hcart] at hc
        injection hc with h1
        exact h1.symm
      subst hieq
      rcases hrest with ⟨hok, h⟩ | ⟨hok, h⟩
      · rw [h] at hcr
        simp at hcr
      · rw [h] at hcr
        simp only [CreateResult.created.injEq] at hcr
        rw [← hcr.1]
        refine ⟨by rw [htot]; rfl, by rw [htot]; exact h0t, ?_⟩
        exact round2_nonneg total (le_of_lt h0t)
    · intro items' hc hle
      have hieq : items' = items := by
        rw [hcart] at hc
        injection hc with h1
        exact h1.symm
      subst hieq
      rw [htot] at hle
      exact absurd hle hpos

/-- Witness for C4: the spec scenario cart totals 399 and is persisted
with that rounded total; a zero-total cart is rejected with nothing
written. -/
theorem c4_witness :
    (docGood.totalAmount = round2 (itemsTotal cartGood) ∧ 0 < itemsTotal cartGood ∧
      0 ≤ docGood.totalAmount) ∧
    ((∃ c m, (create_order 7 reqZero 4 0 true).1 = .reject c m) ∧
      (create_order 7 reqZero 4 0 true).2 = []) :=
  ⟨(c4_total_invariant 7 reqGood 4 0 true).1 docGood 201 cartGood rfl
      (by rw [create_order_reqGood_eval]),
   (c4_total_invariant 7 reqZero 4 0 true).2 cartZero rfl itemsTotal_cartZero_le⟩

/-- Counterexample for C4 as frozen: a cart with the positive price
1/1000 is accepted, but the persisted totalAmount is the rounded value 0,
so a persisted order with totalAmount not strictly positive exists. -/
theorem c4_counterexample :
    (0 : Rat) < 1 / 1000 ∧
    ((create_order 7 reqTiny 4 0 true).2.map (fun doc => doc.totalAmount)) = [0] := by
  have h1 : "Tonic".isEmpty = false := by decide
  have h2 : ((some "p1" : Option String) = none) = False := by simp
  have h3 : "cod".isEmpty = false := by decide
  have h4 : (AddrField.adict = AddrField.anotDict) = False := by simp
  constructor
  · norm_num
  · norm_num [create_order, reqTiny, cartTiny, processItems, cartFalsy, optStrFalsy,
      addrFalsy, round2, roundHalfEven, h1, h2, h3, h4]

/-! Claim C5. -/

/-- C5: order creation writes exactly the single assembled document when
it returns created, and writes nothing on every other outcome, in
particular on every validation failure; all validation happens before
the one insert. -/
theorem c5_write_discipline (u : Nat) (req : OrderReq) (d now : Nat) (ok : Bool) :
    (create_order u req d now ok).2 =
      (match (create_order u req d now ok).1 with
       | .created doc _ => [doc]
       | _ => []) := by
  rcases create_order_cases u req d now ok with ⟨c, m, h⟩ |
    ⟨items, total, oitems, _, _, _, _, ⟨_, h⟩ | ⟨_, h⟩⟩ <;> rw [h]

/-! Claim C8. -/

/-- C8 (amended): order creation accepts only the cod payment method:
every persisted document records paymentMethod cod with paymentStatus
processing, and any request selecting gateway is rejected with nothing
persisted; no tentative completed status exists in the creation path. -/
theorem c8_only_cod (u : Nat) (req : OrderReq) (d now : Nat) (ok : Bool) :
    (∀ doc code, (create_order u req d now ok).1 = .created doc code →
        doc.paymentMethod = "cod" ∧ doc.paymentStatus = "processing") ∧
    (req.paymentMethod = some "gateway" →
        (create_order u req d now ok).2 = [] ∧
        ∀ doc code, (create_order u req d now ok).1 ≠ .created doc code) := by
  rcases create_order_cases u req d now ok with ⟨c, m, h⟩ |
    ⟨items, total, oitems, hcart, hpi, hpos, hpm, hrest⟩
  · constructor
    · intro doc code hcr
      rw [h] at hcr
      simp at hcr
    · intro _
      refine ⟨by rw [h], fun doc code hcr => ?_⟩
      rw [h] at hcr
      simp at hcr
  · constructor
    · intro doc code hcr
      rcases hrest with ⟨hok, h⟩ | ⟨hok, h⟩
      · rw [h] at hcr
        simp at hcr
      · rw [h] at hcr
        simp only [CreateResult.created.injEq] at hcr
        rw [← hcr.1]
        exact ⟨rfl, rfl⟩
    · intro hgw
      rw [hgw] at hpm
      simp at hpm

/-- Witness for C8: the valid cod request persists a cod processing
document, and the same cart under gateway persists nothing. -/
theorem c8_witness :
    (docGood.paymentMethod = "cod" ∧ docGood.paymentStatus = "processing") ∧
    ((create_order 7 reqGateway 4 0 true).2 = [] ∧
      ∀ doc code, (create_order 7 reqGateway 4 0 true).1 ≠ .created doc code) :=
  ⟨(c8_only_cod 7 reqGood 4 0 true).1 docGood 201 (by rw [create_order_reqGood_eval]),
   (c8_only_cod 7 reqGateway 4 0 true).2 rfl⟩

/-- Counterexample for C8 as frozen: a fully valid gateway request is
rejected with HTTP 400 and nothing is persisted, so order creation does
not accept paymentMethod gateway, let alone set completed. -/
theorem c8_counterexample :
    create_order 7 reqGateway 4 0 true =
      (.reject 400 "Only Cash on Delivery is currently supported", []) := rfl

/-! Claim C6. -/

/-- C6: whenever the secret is unconfigured, the signature header is
missing, or the computed HMAC hex digest of the raw body differs from
the supplied header, the webhook handler returns a non-200 response and
leaves the orders collection untouched, before any event processing. -/
theorem c6_signature_gate (hmacHex : String → List Nat → String)
    (webhookSecret : Option String) (req : WebhookRequest)
    (uf : Bool) (now : Nat) (orders : List Order)
    (h : webhookSecret = none ∨ req.signatureHeader = none ∨
        ∀ secret sig, webhookSecret = some secret → req.signatureHeader = some sig →
          hmacHex secret req.body ≠ sig) :
    (razorpay_webhook hmacHex webhookSecret req uf now orders).httpStatus ≠ 200 ∧
    (razorpay_webhook hmacHex webhookSecret req uf now orders).orders = orders := by
  rcases h with h | h | h
  · subst h
    exact ⟨by simp [razorpay_webhook], rfl⟩
  · cases hsec : webhookSecret with
    | none => exact ⟨by simp [razorpay_webhook], rfl⟩
    | some s =>
      have hres : razorpay_webhook hmacHex (some s) req uf now orders =
          ⟨400, "error", orders⟩ := by
        unfold razorpay_webhook
        rw [h]
      rw [hres]
      exact ⟨by simp, rfl⟩
  · cases hsec : webhookSecret with
    | none => exact ⟨by simp [razorpay_webhook], rfl⟩
    | some s =>
      cases hsig : req.signatureHeader with
      | none =>
        have hres : razorpay_webhook hmacHex (some s) req uf now orders =
            ⟨400, "error", orders⟩ := by
          unfold razorpay_webhook
          rw [hsig]
        rw [hres]
        exact ⟨by simp, rfl⟩
      | some sig =>
        have hne : hmacHex s req.body ≠ sig := h s sig hsec hsig
        have hres : razorpay_webhook hmacHex (some s) req uf now orders =
            ⟨400, "error", orders⟩ := by
          unfold razorpay_webhook
          rw [hsig]
          simp [hne]
        rw [hres]
        exact ⟨by simp, rfl⟩

/-- Witness for C6: a wrong signature header is rejected with the store
unchanged. -/
theorem c6_witness :
    (razorpay_webhook (fun _ _ => "right") (some "s")
        ⟨[], some "wrong", some evCaptured⟩ false 5 [orderProcessing]).httpStatus ≠ 200 ∧
    (razorpay_webhook (fun _ _ => "right") (some "s")
        ⟨[], some "wrong", some evCaptured⟩ false 5 [orderProcessing]).orders =
      [orderProcessing] :=
  c6_signature_gate (fun _ _ => "right") (some "s") ⟨[], some "wrong", some evCaptured⟩
    false 5 [orderProcessing]
    (Or.inr (Or.inr (fun secret sig hsec hsig => by
      injection hsec with h1
      injection hsig with h2
      subst h1
      subst h2
      decide)))

/-! Claim C7. -/

/-- C7 (amended): once the signature verifies, the handler always
responds HTTP 200: with body status ok and the updated store when the
event was processed or discarded as a no-op, and with body status
error-processing-payload and the unchanged store when processing raised;
it never returns a non-200 after signature success, even for an
unresolved event. -/
theorem c7_verified_always_200 (hmacHex : String → List Nat → String)
    (secret : String) (req : WebhookRequest) (uf : Bool) (now : Nat)
    (orders : List Order) (sig : String)
    (hsig : req.signatureHeader = some sig)
    (hmac : hmacHex secret req.body = sig) :
    (razorpay_webhook hmacHex (some secret) req uf now orders).httpStatus = 200 ∧
    razorpay_webhook hmacHex (some secret) req uf now orders =
      (match processEventExc req.parsed uf orders now with
       | .ok orders2 => ⟨200, "ok", orders2⟩
       | .error _ => ⟨200, "error processing payload", orders⟩) := by
  have h2 : razorpay_webhook hmacHex (some secret) req uf now orders =
      (match processEventExc req.parsed uf orders now with
       | .ok orders2 => ⟨200, "ok", orders2⟩
       | .error _ => ⟨200, "error processing payload", orders⟩) := by
    simp only [razorpay_webhook, hsig, hmac, beq_self_eq_true, if_true]
  refine ⟨?_, h2⟩
  rw [h2]
  cases processEventExc req.parsed uf orders now <;> rfl

/-- Witness for C7 on a verified captured event with a healthy store. -/
theorem c7_witness :
    (razorpay_webhook (fun _ _ => "sig") (some "s") ⟨[], some "sig", some evCaptured⟩
        false 5 [orderProcessing]).httpStatus = 200 ∧
    razorpay_webhook (fun _ _ => "sig") (some "s") ⟨[], some "sig", some evCaptured⟩
        false 5 [orderProcessing] =
      (match processEventExc (some evCaptured) false [orderProcessing] 5 with
       | .ok orders2 => ⟨200, "ok", orders2⟩
       | .error _ => ⟨200, "error processing payload", [orderProcessing]⟩) :=
  c7_verified_always_200 (fun _ _ => "sig") "s" ⟨[], some "sig", some evCaptured⟩
    false 5 [orderProcessing] "sig" rfl rfl

/-- Counterexample for C7 as frozen: a verified captured event for a
non-terminal order requires a transition, the store write fails, so the
event is not durably resolved and the order is unchanged, yet the
handler responds HTTP 200 instead of the non-200 the claim requires. -/
theorem c7_counterexample :
    capturedWrite [orderProcessing] evCaptured = some ⟨1, "completed", some "pay_9"⟩ ∧
    (razorpay_webhook (fun _ _ => "sig") (some "s") ⟨[], some "sig", some evCaptured⟩
        true 5 [orderProcessing]).orders = [orderProcessing] ∧
    (razorpay_webhook (fun _ _ => "sig") (some "s") ⟨[], some "sig", some evCaptured⟩
        true 5 [orderProcessing]).httpStatus = 200 ∧
    (razorpay_webhook (fun _ _ => "sig") (some "s") ⟨[], some "sig", some evCaptured⟩
        true 5 [orderProcessing]).bodyStatus = "error processing payload" :=
  ⟨rfl, rfl, rfl, rfl⟩

/-! Claim C9. -/

/-- C9 is a code bug: the administrative status override validates the
requested value against the allowed list but never inspects the current
paymentStatus, so it moves a completed order (terminal by the spec) back
to pending, violating the terminal-state invariant the spec imposes on
it. -/
theorem c9_admin_overrides_terminal :
    "completed" ∈ (["completed", "failed", "cancelled"] : List String) ∧
    update_order_status [orderCompleted] 1 (some "pending") =
      (.okUpdated, [⟨1, 7, 100, "razorpay", "pending", some "ord_1", none, none⟩]) :=
  ⟨by decide, by decide⟩

/-! Claim C10. -/

/-- C10 is a code bug: the reconciler is a find_one followed by an
update_one filtered only by _id, not one atomic conditional write.
Under the interleaving read-read-write-write, both the captured and the
failed delivery pass the non-terminal guard against the initial store,
and both writes are applied: the order transitions twice, completed then
failed.  Sequential delivery, by contrast, applies exactly one
transition (last conjunct). -/
theorem c10_race_two_transitions :
    capturedWrite [orderProcessing] evCaptured = some ⟨1, "completed", some "pay_9"⟩ ∧
    failedWrite [orderProcessing] evFailed = some ⟨1, "failed", some "pay_8"⟩ ∧
    (applyWrite [orderProcessing] ⟨1, "completed", some "pay_9"⟩ 5).map
        (fun o => o.paymentStatus) = ["completed"] ∧
    (applyWrite (applyWrite [orderProcessing] ⟨1, "completed", some "pay_9"⟩ 5)
        ⟨1, "failed", some "pay_8"⟩ 6).map (fun o => o.paymentStatus) = ["failed"] ∧
    processEvent (processEvent [orderProcessing] evCaptured 5) evFailed 6 =
      processEvent [orderProcessing] evCaptured 5 :=
  ⟨rfl, rfl, rfl, rfl, rfl⟩

end Ayur
